import Mathlib

/-!
Shallow embedding of `src/health_monitor.py` (class `HealthMonitor`): a
serial-line health-telemetry bridge.  Pure data flow is embedded as Lean
functions; I/O effects (CSV append, ThingSpeak upload, sleeps, port scans)
are modelled by explicit environments supplying their outcomes and by
event traces recording what the code performed, in order.

Python string primitives (`in`, `split`, `replace`, `strip`, `int`,
`lower`) are embedded as structurally recursive functions over the
character list of a `String`, so that every definition evaluates inside
the kernel on concrete inputs.
-/

namespace HealthMonitor

/-- Whitespace for Python's `str.strip()`. -/
def pySpace (c : Char) : Bool :=
  c = ' ' || c = '\t' || c = '\n' || c = '\r' || c = '\x0b' || c = '\x0c'

/-- Whether `pat` is an initial segment of `s` (character lists). -/
def isPre : List Char → List Char → Bool
  | [], _ => true
  | _ :: _, [] => false
  | p :: ps, c :: cs => p = c && isPre ps cs

/-- Python's `pat in s` substring test (nonempty `pat` at every call site). -/
def containsSub (pat : List Char) : List Char → Bool
  | [] => isPre pat []
  | c :: rest => isPre pat (c :: rest) || containsSub pat rest

/-- The characters of `s` strictly before the first occurrence of `pat`
(all of `s` when `pat` does not occur). -/
def upToFirst (pat : List Char) : List Char → List Char
  | [] => []
  | c :: rest =>
      if isPre pat (c :: rest) then [] else c :: upToFirst pat rest

/-- The characters of `s` strictly after the first occurrence of `pat`;
`none` when `pat` does not occur. -/
def afterFirst (pat : List Char) : List Char → Option (List Char)
  | [] => none
  | c :: rest =>
      if isPre pat (c :: rest) then some (rest.drop (pat.length - 1))
      else afterFirst pat rest

/-- Python's `s.replace(pat, rep)` for nonempty `pat`: replace every
non-overlapping occurrence, scanning left to right.  The `fuel` argument
(instantiated with the length of `s`) only makes the recursion structural;
one character or more of `s` is consumed per unit. -/
def replaceFuel (pat rep : List Char) : Nat → List Char → List Char
  | _, [] => []
  | 0, s => s
  | fuel + 1, c :: rest =>
      if isPre pat (c :: rest) then
        rep ++ replaceFuel pat rep fuel (rest.drop (pat.length - 1))
      else c :: replaceFuel pat rep fuel rest

/-- Python's `s.strip()`. -/
def pyStripL (l : List Char) : List Char :=
  ((l.dropWhile pySpace).reverse.dropWhile pySpace).reverse

/-- Digit run to a number; `none` on any non-digit character. -/
def digitsToNat (acc : Nat) : List Char → Option Nat
  | [] => some acc
  | c :: rest =>
      if c.isDigit then digitsToNat (acc * 10 + (c.toNat - 48)) rest
      else none

/-- Python's `int(str)` on the strings this program feeds it: surrounding
whitespace is stripped, an optional sign is accepted, and the rest must be
a nonempty run of decimal digits; any other shape raises `ValueError`,
modelled as `none`. -/
def pyIntL (l : List Char) : Option Int :=
  match pyStripL l with
  | '-' :: rest =>
      if rest.isEmpty then none
      else (digitsToNat 0 rest).map (fun n => -(n : Int))
  | '+' :: rest =>
      if rest.isEmpty then none
      else (digitsToNat 0 rest).map (fun n => (n : Int))
  | t => if t.isEmpty then none else (digitsToNat 0 t).map (fun n => (n : Int))

/-- Python's `pat in s` on `String`. -/
def strContains (s pat : String) : Bool := containsSub pat.data s.data

/-- Python's `s.replace(pat, rep)` on `String`. -/
def pyReplace (s pat rep : String) : String :=
  ⟨replaceFuel pat.data rep.data s.data.length s.data⟩

/-- Python's `s.lower()` (ASCII). -/
def pyLower (s : String) : String := ⟨s.data.map Char.toLower⟩

/-- Python's `int(s)`. -/
def pyInt (s : String) : Option Int := pyIntL s.data

/-- The key of a line: `line.split(':', 1)[0]`. -/
def lineType (line : String) : String := ⟨upToFirst [':'] line.data⟩

/-- The value of a line: `line.split(':', 1)[1]`, i.e. everything after
the first colon (later colons are kept; only meaningful when the line
contains a colon). -/
def lineValue (line : String) : String :=
  ⟨(afterFirst [':'] line.data).getD []⟩

/-- `data_value.split('Queue=')[1].split(',')[0]` then `int(_.strip())`
from the `DETECT` branch of `parse_data`; `none` models the `ValueError`
path (and the absent-occurrence case, unreachable under the `in` guard). -/
def extractQueueNum (dv : String) : Option Int :=
  match afterFirst "Queue=".data dv.data with
  | some rest => pyIntL (upToFirst [','] (upToFirst "Queue=".data rest))
  | none => none

/-- The `HEARTBEAT` branch's value extraction: remove every `Reading=`
occurrence when one is present, else parse the whole value. -/
def extractReading (dv : String) : Option Int :=
  if strContains dv "Reading=" then pyInt (pyReplace dv "Reading=" "")
  else pyInt dv

/-- The `BPM` branch's value extraction: remove every `Value=` occurrence
when one is present, else parse the whole value. -/
def extractValue (dv : String) : Option Int :=
  if strContains dv "Value=" then pyInt (pyReplace dv "Value=" "")
  else pyInt dv

/-- The mutable fields of `HealthMonitor` that the record assembler
(`parse_data` / `save_patient_data`) reads and writes. -/
structure MonitorState where
  current_patient_number : Int
  last_bpm : Option Int
  last_heartbeat : Option Int
  deriving Repr, DecidableEq

/-- Outcome of the ThingSpeak GET request (`requests.get`, line 53). -/
inductive SinkResponse where
  | httpOk (body : String)
  | httpErr (code : Nat)
  | connErr
  deriving Repr, DecidableEq

/-- Environment for a flush: whether the CSV append raises, whether
ThingSpeak upload is enabled, the sink's response, and the wall-clock
timestamp string produced by `datetime.now().strftime(...)`. -/
structure FlushEnv where
  storeOk : Bool
  thingspeakEnabled : Bool
  resp : SinkResponse
  ts : String
  deriving Repr, DecidableEq

/-- Observable effects of handling a line, in program order. -/
inductive Event where
  | detected (n : Int)
  | heartbeatRead (v : Int)
  | bpmRead (v : Int)
  | parseWarning
  | storeAppend (patient : Int) (ts : String) (bpm hb : Int)
  | storeFailReported
  | uploadAttempt (patient : Int) (bpm hb : Int)
  | uploadOk (body : String)
  | uploadFailReported
  | uploadDisabled
  deriving Repr, DecidableEq

/-- `send_to_thingspeak`: returns `False` when disabled; otherwise a 200
response with body other than `"0"` is success; body `"0"`, a non-200
status, or a connection error is failure.  The function catches every
exception internally and never raises. -/
def send_to_thingspeak (env : FlushEnv) (patient bpm hb : Int) :
    Bool × List Event :=
  if env.thingspeakEnabled = false then (false, [Event.uploadDisabled])
  else
    match env.resp with
    | SinkResponse.httpOk body =>
        if body != "0" then
          (true, [Event.uploadAttempt patient bpm hb, Event.uploadOk body])
        else
          (false, [Event.uploadAttempt patient bpm hb, Event.uploadFailReported])
    | SinkResponse.httpErr _ =>
        (false, [Event.uploadAttempt patient bpm hb, Event.uploadFailReported])
    | SinkResponse.connErr =>
        (false, [Event.uploadAttempt patient bpm hb, Event.uploadFailReported])

/-- `save_patient_data`: when both `last_bpm` and `last_heartbeat` are
set, append the row to the CSV, then (if enabled) upload, then clear both
fields.  The whole body is inside `try`; a failing CSV append jumps to the
`except` handler, which only prints — so the clearing at the end of the
`try` block is skipped and both fields keep their values. -/
def save_patient_data (env : FlushEnv) (s : MonitorState) :
    MonitorState × List Event :=
  match s.last_bpm, s.last_heartbeat with
  | some bpm, some hb =>
      if env.storeOk then
        let upEvs :=
          if env.thingspeakEnabled then
            (send_to_thingspeak env s.current_patient_number bpm hb).2
          else []
        ({ s with last_bpm := none, last_heartbeat := none },
         Event.storeAppend s.current_patient_number env.ts bpm hb :: upEvs)
      else (s, [Event.storeFailReported])
  | _, _ => (s, [])

/-- `parse_data`: split on the first `:` (no colon: line ignored), then
dispatch on the key.  `DETECT` updates the patient counter from a `Queue=`
field; `HEARTBEAT` stores the reading; `BPM` stores the value and, when a
heartbeat reading is pending, calls `save_patient_data`.  A `ValueError`
from `int(...)` is caught and reported as a parse warning, leaving all
state unchanged. -/
def parse_data (env : FlushEnv) (s : MonitorState) (line : String) :
    MonitorState × List Event :=
  if strContains line ":" = false then (s, [])
  else if lineType line = "DETECT" then
    if strContains (lineValue line) "Queue=" then
      match extractQueueNum (lineValue line) with
      | some n =>
          if n ≤ s.current_patient_number then
            ({ s with current_patient_number := s.current_patient_number + 1 },
             [Event.detected (s.current_patient_number + 1)])
          else
            ({ s with current_patient_number := n }, [Event.detected n])
      | none => (s, [Event.parseWarning])
    else (s, [])
  else if lineType line = "HEARTBEAT" then
    match extractReading (lineValue line) with
    | some v => ({ s with last_heartbeat := some v }, [Event.heartbeatRead v])
    | none => (s, [Event.parseWarning])
  else if lineType line = "BPM" then
    match extractValue (lineValue line) with
    | some v =>
        let s1 := { s with last_bpm := some v }
        if s1.last_heartbeat.isSome then
          let r := save_patient_data env s1
          (r.1, Event.bpmRead v :: r.2)
        else (s1, [Event.bpmRead v])
    | none => (s, [Event.parseWarning])
  else (s, [])

/-- An event witnessing a record flush (a row appended to the store). -/
def isFlushEvent : Event → Bool
  | Event.storeAppend _ _ _ _ => true
  | _ => false

/-- Whether handling a line flushed a record to the store. -/
def flushed (evs : List Event) : Bool := evs.any isFlushEvent

/-! ### Device locator (`find_available_arduino_port`) -/

/-- The USB-serial keyword filter of the scan loop (line 81):
keep devices whose lowercased name contains `usbmodem` or `usbserial`. -/
def isArduinoName (device : String) : Bool :=
  strContains (pyLower device) "usbmodem" || strContains (pyLower device) "usbserial"

/-- The alias-expansion loop (lines 86-95): every matching name containing
`cu.` is followed by its `tty.` sibling, every name containing `tty.`
(and not `cu.`) by its `cu.` sibling, other names pass through. -/
def expand_aliases : List String → List String
  | [] => []
  | p :: rest =>
      (if strContains p "cu." then [p, pyReplace p "cu." "tty."]
       else if strContains p "tty." then [p, pyReplace p "tty." "cu."]
       else [p]) ++ expand_aliases rest

/-- Python's `list(dict.fromkeys(l))`: drop duplicates, keeping the first
occurrence of each element, preserving order.  `seen` accumulates the
elements already emitted. -/
def py_dedup_aux (seen : List String) : List String → List String
  | [] => []
  | x :: xs =>
      if x ∈ seen then py_dedup_aux seen xs
      else x :: py_dedup_aux (x :: seen) xs

/-- `find_available_arduino_port`, as a function of the device names the
system scan returns: filter to USB-serial names, synthesize the sibling
alias for each, and de-duplicate preserving first-occurrence order. -/
def find_available_arduino_port (comports : List String) : List String :=
  py_dedup_aux [] (expand_aliases (comports.filter isArduinoName))

/-! ### Connection manager (`connect`) -/

/-- Outcome of `serial.Serial(port, ...)` for one attempt, as the code
distinguishes it: success, a `SerialException` whose text contains
`Resource busy`, or any other failure. -/
inductive OpenResult where
  | openOk
  | openBusy
  | openErr
  deriving Repr, DecidableEq

/-- Environment for `connect`: per attempt index, the candidate list the
port scan returns, the result of `test_port` on each candidate, and the
result of opening a port. -/
structure ConnEnv where
  scan : Nat → List String
  testOk : Nat → String → Bool
  openRes : Nat → String → OpenResult

/-- Timing/discovery effects of `connect`, in order: a port scan, the
inter-attempt `time.sleep(retry_delay)`, and the post-open settle
`time.sleep(2)`. -/
inductive ConnEvent where
  | discover (found : List String)
  | sleepRetry (units : Nat)
  | settle (units : Nat)
  deriving Repr, DecidableEq

/-- How `connect` returns: the port it connected to, or one of its three
`return False` paths (no candidates scanned, a non-busy open failure, the
retry loop falling through). -/
inductive ConnOutcome where
  | connected (port : String)
  | noPortsFound
  | connectFailed
  | retriesExhausted
  deriving Repr, DecidableEq

/-- `max_retries = 3` (line 118). -/
def max_retries : Nat := 3

/-- `retry_delay = 2` (line 119). -/
def retry_delay : Nat := 2

/-- The open step of one attempt (lines 142-169): on success settle and
connect; on a busy `SerialException` clear the pin (`self.port = None`),
sleep when attempts remain, and continue; on any other failure return.
`Sum.inl` is a `return`, `Sum.inr` the pin carried into the next loop
iteration. -/
def connect_open (env : ConnEnv) (i : Nat) (p : String) (pre : List ConnEvent) :
    (ConnOutcome ⊕ Option String) × List ConnEvent :=
  match env.openRes i p with
  | OpenResult.openOk => (Sum.inl (ConnOutcome.connected p), pre ++ [ConnEvent.settle 2])
  | OpenResult.openBusy =>
      (Sum.inr none,
       pre ++ (if i + 1 < max_retries then [ConnEvent.sleepRetry retry_delay] else []))
  | OpenResult.openErr => (Sum.inl ConnOutcome.connectFailed, pre)

/-- One iteration of the `for attempt in range(max_retries)` body
(lines 121-169): when no port is pinned, scan (returning `False` when the
scan finds nothing), probe the candidates with `test_port`, retry when
none probe clean, else pin the first working candidate; then open the
pinned port. -/
def connect_attempt (env : ConnEnv) (i : Nat) (pin : Option String) :
    (ConnOutcome ⊕ Option String) × List ConnEvent :=
  match pin with
  | some p => connect_open env i p []
  | none =>
      let found := env.scan i
      if found.isEmpty then (Sum.inl ConnOutcome.noPortsFound, [ConnEvent.discover found])
      else
        match found.filter (env.testOk i) with
        | [] =>
            (Sum.inr none,
             [ConnEvent.discover found]
               ++ (if i + 1 < max_retries then [ConnEvent.sleepRetry retry_delay] else []))
        | p :: _ => connect_open env i p [ConnEvent.discover found]

/-- The retry loop of `connect` over the remaining attempt indices;
falling off the end is the final `return False` (line 171).  Returns the
outcome, the number of loop iterations entered, and the event trace. -/
def connect_go (env : ConnEnv) : List Nat → Option String → ConnOutcome × Nat × List ConnEvent
  | [], _ => (ConnOutcome.retriesExhausted, 0, [])
  | i :: rest, pin =>
      match connect_attempt env i pin with
      | (Sum.inl out, evs) => (out, 1, evs)
      | (Sum.inr pin2, evs) =>
          let r := connect_go env rest pin2
          (r.1, r.2.1 + 1, evs ++ r.2.2)

/-- `connect`: run the attempt loop for `range(max_retries)` starting from
the currently pinned port (`self.port`, `None` unless the user pinned
one). -/
def connect (env : ConnEnv) (pin : Option String) : ConnOutcome × Nat × List ConnEvent :=
  connect_go env (List.range max_retries) pin

/-! ### Store startup (`initialize_csv`) -/

/-- A row of `health_data_current.csv`: the header written on creation, or
a data row `[patient, timestamp, bpm, heartbeat]` as `save_patient_data`
writes it. -/
inductive CsvRow where
  | header
  | data (patient : Int) (timestamp : String) (bpm hb : Int)
  deriving Repr, DecidableEq

/-- `int(row[0])` on a CSV row: the header's first cell
(`'Patient_Number'`) is not integer-parseable, a data row's is its patient
number. -/
def rowFirstInt : CsvRow → Option Int
  | CsvRow.header => none
  | CsvRow.data p _ _ _ => some p

/-- `initialize_csv`, as a function of the current file contents (`none`
models an absent file): absent, create the file with a header row and
counter 0; present with more than one row, seed the counter from
`int(rows[-1][0])` (an unparseable last row raises, and the `except`
fallback recreates the file with counter 0); present with at most one row,
keep the file and use counter 0.  Returns the resulting file contents and
`current_patient_number`. -/
def init_csv (file : Option (List CsvRow)) : List CsvRow × Int :=
  match file with
  | none => ([CsvRow.header], 0)
  | some rows =>
      if 1 < rows.length then
        match rows.getLast? with
        | some r =>
            match rowFirstInt r with
            | some n => (rows, n)
            | none => ([CsvRow.header], 0)
        | none => (rows, 0)
      else (rows, 0)

/-- The CSV row `save_patient_data` appends for a completed record. -/
def recordToRow (r : Int × String × Int × Int) : CsvRow :=
  CsvRow.data r.1 r.2.1 r.2.2.1 r.2.2.2

/-- The store after appending a batch of completed records (one
`writer.writerow` per flush, in order). -/
def appendRecords (file : List CsvRow) (recs : List (Int × String × Int × Int)) :
    List CsvRow :=
  file ++ recs.map recordToRow

/-! ### Supervised read loop (`monitor_serial`) -/

/-- The `HealthMonitor` fields the serial worker loop touches, plus the
worker-local `reconnect_attempts` counter. -/
structure LoopState where
  running : Bool
  connection_lost : Bool
  reconnect_attempts : Nat
  connected : Bool
  deriving Repr, DecidableEq

/-- Per-tick environment for the worker: whether `check_connection`
succeeds on this tick, and whether the `connect()` inside a `reconnect()`
would succeed. -/
structure TickEnv where
  checkOk : Bool
  reconnectOk : Bool
  deriving Repr, DecidableEq

/-- `disconnect` (lines 333-341): sets `self.running = False` and closes
the serial handle, swallowing close errors. -/
def disconnect (s : LoopState) : LoopState :=
  { s with running := false, connected := false }

/-- `reconnect` (lines 185-190): `disconnect`, sleep, then `connect`; a
successful `connect` re-opens the transport and clears
`connection_lost` — but nothing sets `running` again. -/
def reconnect (env : TickEnv) (s : LoopState) : LoopState × Bool :=
  let s1 := disconnect s
  if env.reconnectOk then
    ({ s1 with connected := true, connection_lost := false }, true)
  else (s1, false)

/-- One iteration of the `while self.running` body of `serial_worker`
(lines 359-404): on a failed connection check, mark the connection lost
and, below the bound of 5 attempts, call `reconnect` — resetting the
attempt counter on success, incrementing it on failure; at the bound, take
the longer pause and continue.  On a healthy check, reset the attempt
counter (line reading and `parse_data` are handled elsewhere and do not
touch these fields). -/
def worker_step (env : TickEnv) (s : LoopState) : LoopState :=
  if env.checkOk = false then
    let s0 := { s with connection_lost := true }
    if s0.reconnect_attempts < 5 then
      let r := reconnect env s0
      if r.2 then { r.1 with reconnect_attempts := 0, connection_lost := false }
      else { r.1 with reconnect_attempts := r.1.reconnect_attempts + 1 }
    else s0
  else { s with reconnect_attempts := 0 }

/-- The `while self.running` loop over a finite prefix of tick
environments: the condition is re-checked before every iteration, so the
loop stops consuming ticks as soon as `running` is false. -/
def worker_run (envs : List TickEnv) (s : LoopState) : LoopState :=
  match envs with
  | [] => s
  | e :: rest => if s.running then worker_run rest (worker_step e s) else s

/-! ## Helper lemmas -/

theorem save_patient_data_eq (env : FlushEnv) (s : MonitorState) (b hb : Int)
    (h1 : s.last_bpm = some b) (h2 : s.last_heartbeat = some hb)
    (h3 : env.storeOk = true) :
    save_patient_data env s =
      ({ s with last_bpm := none, last_heartbeat := none },
       Event.storeAppend s.current_patient_number env.ts b hb ::
         (if env.thingspeakEnabled then
            (send_to_thingspeak env s.current_patient_number b hb).2
          else [])) := by
  unfold save_patient_data
  rw [h1, h2, h3]
  simp

theorem save_patient_data_fail (env : FlushEnv) (s : MonitorState) (b hb : Int)
    (h1 : s.last_bpm = some b) (h2 : s.last_heartbeat = some hb)
    (h3 : env.storeOk = false) :
    save_patient_data env s = (s, [Event.storeFailReported]) := by
  unfold save_patient_data
  rw [h1, h2, h3]
  simp

theorem save_patient_data_counter (env : FlushEnv) (s : MonitorState) :
    (save_patient_data env s).1.current_patient_number =
      s.current_patient_number := by
  unfold save_patient_data
  rcases s.last_bpm with _ | b <;> rcases h2 : s.last_heartbeat with _ | hb <;>
    rcases h3 : env.storeOk <;> simp [h2, h3]

theorem parse_data_detect_counter (env : FlushEnv) (s : MonitorState)
    (line : String) (n : Int)
    (hc : strContains line ":" = true)
    (ht : lineType line = "DETECT")
    (hq : strContains (lineValue line) "Queue=" = true)
    (hn : extractQueueNum (lineValue line) = some n) :
    (parse_data env s line).1.current_patient_number =
      if n ≤ s.current_patient_number then s.current_patient_number + 1
      else n := by
  unfold parse_data
  rw [hc, ht, hq, hn]
  by_cases hle : n ≤ s.current_patient_number <;> simp [hle]

/-! ## Claims -/

/-- C1: for every `DETECT` line whose value carries an integer `Queue=n`
sub-field, handling the line sets the patient sequence counter to
`counter+1` when `n ≤ counter` and to `n` when `n > counter`. -/
theorem claim_C1_detect_queue_counter (env : FlushEnv) (s : MonitorState)
    (line : String) (n : Int)
    (hc : strContains line ":" = true)
    (ht : lineType line = "DETECT")
    (hq : strContains (lineValue line) "Queue=" = true)
    (hn : extractQueueNum (lineValue line) = some n) :
    (parse_data env s line).1.current_patient_number =
      if n ≤ s.current_patient_number then s.current_patient_number + 1
      else n :=
  parse_data_detect_counter env s line n hc ht hq hn

/-- Witness for C1 at the spec's own examples: from counter 5,
`DETECT:Queue=3` yields 6 and `DETECT:Queue=9` yields 9. -/
theorem claim_C1_detect_queue_counter_witness :
    (parse_data ⟨true, true, SinkResponse.httpOk "1", "T"⟩ ⟨5, none, none⟩
        "DETECT:Queue=3").1.current_patient_number = 6 ∧
    (parse_data ⟨true, true, SinkResponse.httpOk "1", "T"⟩ ⟨5, none, none⟩
        "DETECT:Queue=9").1.current_patient_number = 9 := by
  constructor
  · rw [claim_C1_detect_queue_counter _ _ _ 3 (by decide) (by decide) (by decide)
      (by decide)]
    decide
  · rw [claim_C1_detect_queue_counter _ _ _ 9 (by decide) (by decide) (by decide)
      (by decide)]
    decide

/-- C3 counterexample: with both fields pending and the CSV append
failing, `save_patient_data` reports the failure but leaves both pending
fields populated — the claimed "the in-memory pending state is
nevertheless cleared" does not hold (the clearing sits inside the `try`
block after the failing write, so the `except` handler skips it). -/
theorem claim_C3_counterexample :
    save_patient_data ⟨false, true, SinkResponse.httpOk "1", "T"⟩
        ⟨1, some 72, some 512⟩ =
      (⟨1, some 72, some 512⟩, [Event.storeFailReported]) := by decide

/-- C3 amended: when the append to the local store fails, the failure is
reported and the handler returns normally (the process does not halt), but
the pending heart-rate and raw-sensor-reading fields are left unchanged
rather than cleared, so the same pending pair remains in memory for later
cycles. -/
theorem claim_C3_store_fail_keeps_pending (env : FlushEnv) (s : MonitorState)
    (b hb : Int) (h1 : s.last_bpm = some b) (h2 : s.last_heartbeat = some hb)
    (h3 : env.storeOk = false) :
    save_patient_data env s = (s, [Event.storeFailReported]) :=
  save_patient_data_fail env s b hb h1 h2 h3

/-- Witness for the amended C3: a concrete failing flush reports the
failure and changes nothing. -/
theorem claim_C3_store_fail_keeps_pending_witness :
    save_patient_data ⟨false, false, SinkResponse.connErr, "T2"⟩
        ⟨2, some 80, some 400⟩ =
      (⟨2, some 80, some 400⟩, [Event.storeFailReported]) :=
  claim_C3_store_fail_keeps_pending _ _ 80 400 rfl rfl rfl

/-- C4: on every flush the store append is the first emitted effect — the
row is in the store before any upload is attempted — and in particular a
sink rejection (response body `"0"`) still leaves the append committed and
the pending fields cleared. -/
theorem claim_C4_store_before_upload (env : FlushEnv) (s : MonitorState)
    (b hb : Int) (h1 : s.last_bpm = some b) (h2 : s.last_heartbeat = some hb)
    (h3 : env.storeOk = true) :
    (∃ up, save_patient_data env s =
        ({ s with last_bpm := none, last_heartbeat := none },
         Event.storeAppend s.current_patient_number env.ts b hb :: up)) ∧
    (env.thingspeakEnabled = true → env.resp = SinkResponse.httpOk "0" →
      save_patient_data env s =
        ({ s with last_bpm := none, last_heartbeat := none },
         [Event.storeAppend s.current_patient_number env.ts b hb,
          Event.uploadAttempt s.current_patient_number b hb,
          Event.uploadFailReported])) := by
  refine ⟨⟨_, save_patient_data_eq env s b hb h1 h2 h3⟩, ?_⟩
  intro he hr
  rw [save_patient_data_eq env s b hb h1 h2 h3]
  simp [send_to_thingspeak, he, hr]

/-- Witness for C4: Scenario E concretely — sink body `"0"`, the store row
is written first, the upload failure is reported after, the fields clear. -/
theorem claim_C4_store_before_upload_witness :
    save_patient_data ⟨true, true, SinkResponse.httpOk "0", "T"⟩
        ⟨3, some 70, some 500⟩ =
      (⟨3, none, none⟩,
       [Event.storeAppend 3 "T" 70 500, Event.uploadAttempt 3 70 500,
        Event.uploadFailReported]) := by
  have h := (claim_C4_store_before_upload ⟨true, true, SinkResponse.httpOk "0", "T"⟩
      ⟨3, some 70, some 500⟩ 70 500 rfl rfl rfl).2 rfl rfl
  simpa using h

/-- C5: a line with no colon, and a `HEARTBEAT` or `BPM` line whose
extracted value is not integer-parseable, leave the whole assembler state
unchanged and flush nothing; the embedding is a total function returning
normally (the `ValueError` is caught inside `parse_data`), the line only
producing at most a warning. -/
theorem claim_C5_malformed_lines_safe (env : FlushEnv) (s : MonitorState)
    (line : String)
    (h : strContains line ":" = false
       ∨ (lineType line = "HEARTBEAT" ∧ extractReading (lineValue line) = none)
       ∨ (lineType line = "BPM" ∧ extractValue (lineValue line) = none)) :
    (parse_data env s line).1 = s ∧ flushed (parse_data env s line).2 = false := by
  rcases h with h | ⟨ht, he⟩ | ⟨ht, he⟩
  · unfold parse_data
    rw [h]
    simp [flushed]
  · cases hc : strContains line ":" with
    | false =>
        unfold parse_data
        rw [hc]
        simp [flushed]
    | true =>
        unfold parse_data
        rw [hc, ht, he]
        simp +decide [flushed]
  · cases hc : strContains line ":" with
    | false =>
        unfold parse_data
        rw [hc]
        simp [flushed]
    | true =>
        unfold parse_data
        rw [hc, ht, he]
        simp +decide [flushed]

/-- Witness for C5: a colon-free line, a non-numeric `HEARTBEAT` and a
non-numeric `BPM` line are all dropped without touching the state. -/
theorem claim_C5_malformed_lines_safe_witness :
    ((parse_data ⟨true, true, SinkResponse.httpOk "1", "T"⟩ ⟨4, some 70, some 300⟩
        "garbage line").1 = ⟨4, some 70, some 300⟩ ∧
      flushed (parse_data ⟨true, true, SinkResponse.httpOk "1", "T"⟩
        ⟨4, some 70, some 300⟩ "garbage line").2 = false) ∧
    ((parse_data ⟨true, true, SinkResponse.httpOk "1", "T"⟩ ⟨4, some 70, some 300⟩
        "HEARTBEAT:Reading=oops").1 = ⟨4, some 70, some 300⟩ ∧
      flushed (parse_data ⟨true, true, SinkResponse.httpOk "1", "T"⟩
        ⟨4, some 70, some 300⟩ "HEARTBEAT:Reading=oops").2 = false) ∧
    ((parse_data ⟨true, true, SinkResponse.httpOk "1", "T"⟩ ⟨4, some 70, some 300⟩
        "BPM:NaN").1 = ⟨4, some 70, some 300⟩ ∧
      flushed (parse_data ⟨true, true, SinkResponse.httpOk "1", "T"⟩
        ⟨4, some 70, some 300⟩ "BPM:NaN").2 = false) :=
  ⟨claim_C5_malformed_lines_safe _ _ _ (Or.inl (by decide)),
   claim_C5_malformed_lines_safe _ _ _ (Or.inr (Or.inl ⟨by decide, by decide⟩)),
   claim_C5_malformed_lines_safe _ _ _ (Or.inr (Or.inr ⟨by decide, by decide⟩))⟩

/-- C2 counterexample: from an empty pending record, `BPM:72` then
`HEARTBEAT:512` leaves both fields populated at the same instant, yet no
flush has occurred (only `BPM` lines call `save_patient_data`; the
`HEARTBEAT` branch stores the reading and returns), refuting "a record is
flushed if and only if both fields are populated at the same instant
... regardless of whether it is a BPM or a HEARTBEAT line". -/
theorem claim_C2_counterexample :
    ((parse_data ⟨true, true, SinkResponse.httpOk "1", "T"⟩
        ((parse_data ⟨true, true, SinkResponse.httpOk "1", "T"⟩ ⟨0, none, none⟩
            "BPM:72").1) "HEARTBEAT:512").1.last_bpm = some 72) ∧
    ((parse_data ⟨true, true, SinkResponse.httpOk "1", "T"⟩
        ((parse_data ⟨true, true, SinkResponse.httpOk "1", "T"⟩ ⟨0, none, none⟩
            "BPM:72").1) "HEARTBEAT:512").1.last_heartbeat = some 512) ∧
    flushed (parse_data ⟨true, true, SinkResponse.httpOk "1", "T"⟩
        ((parse_data ⟨true, true, SinkResponse.httpOk "1", "T"⟩ ⟨0, none, none⟩
            "BPM:72").1) "HEARTBEAT:512").2 = false ∧
    flushed (parse_data ⟨true, true, SinkResponse.httpOk "1", "T"⟩ ⟨0, none, none⟩
        "BPM:72").2 = false := by decide

/-- C2 amended: with the store healthy, handling a line flushes a record
exactly when the line is a `BPM` line with a parseable value and the
raw-sensor-reading field is already populated (so both fields are
populated at flush time); a `HEARTBEAT` line never triggers a flush, even
when it makes both fields populated; immediately after a flush both
fields are empty. -/
theorem claim_C2_flush_iff_bpm (env : FlushEnv) (s : MonitorState)
    (line : String) (hstore : env.storeOk = true) :
    (flushed (parse_data env s line).2 = true ↔
      (strContains line ":" = true ∧ lineType line = "BPM" ∧
        (extractValue (lineValue line)).isSome = true ∧
        s.last_heartbeat.isSome = true)) ∧
    (flushed (parse_data env s line).2 = true →
      (parse_data env s line).1.last_bpm = none ∧
      (parse_data env s line).1.last_heartbeat = none) := by
  cases hc : strContains line ":" with
  | false => simp [parse_data, hc, flushed]
  | true =>
      by_cases hdt : lineType line = "DETECT"
      · by_cases hq : strContains (lineValue line) "Queue=" = true
        · cases hqn : extractQueueNum (lineValue line) with
          | none => simp +decide [parse_data, hc, hdt, hq, hqn, flushed, isFlushEvent]
          | some n =>
              by_cases hle : n ≤ s.current_patient_number <;>
                simp +decide [parse_data, hc, hdt, hq, hqn, hle, flushed, isFlushEvent]
        · simp +decide [parse_data, hc, hdt, hq, flushed]
      · by_cases hhb : lineType line = "HEARTBEAT"
        · cases hr : extractReading (lineValue line) with
          | none => simp +decide [parse_data, hc, hdt, hhb, hr, flushed, isFlushEvent]
          | some v => simp +decide [parse_data, hc, hdt, hhb, hr, flushed, isFlushEvent]
        · by_cases hbpm : lineType line = "BPM"
          · cases hv : extractValue (lineValue line) with
            | none => simp [parse_data, hc, hdt, hhb, hbpm, hv, flushed, isFlushEvent]
            | some v =>
                cases hlh : s.last_heartbeat with
                | none => simp [parse_data, hc, hdt, hhb, hbpm, hv, hlh, flushed, isFlushEvent]
                | some hb =>
                    have hsave := save_patient_data_eq env
                      { s with last_bpm := some v } v hb (by simp)
                      (by simpa using hlh) hstore
                    rw [hlh] at hsave
                    simp [parse_data, hc, hdt, hhb, hbpm, hv, hlh, hsave, flushed,
                      isFlushEvent]
          · simp [parse_data, hc, hdt, hhb, hbpm, flushed]

/-- Witness for the amended C2: a concrete `BPM:Value=72` line with a
pending heartbeat reading, under a healthy store. -/
theorem claim_C2_flush_iff_bpm_witness :
    (flushed (parse_data ⟨true, true, SinkResponse.httpOk "1", "T"⟩
          ⟨1, none, some 512⟩ "BPM:Value=72").2 = true ↔
        (strContains "BPM:Value=72" ":" = true ∧
          lineType "BPM:Value=72" = "BPM" ∧
          (extractValue (lineValue "BPM:Value=72")).isSome = true ∧
          (MonitorState.mk 1 none (some 512)).last_heartbeat.isSome = true)) ∧
    (flushed (parse_data ⟨true, true, SinkResponse.httpOk "1", "T"⟩
          ⟨1, none, some 512⟩ "BPM:Value=72").2 = true →
      (parse_data ⟨true, true, SinkResponse.httpOk "1", "T"⟩
          ⟨1, none, some 512⟩ "BPM:Value=72").1.last_bpm = none ∧
      (parse_data ⟨true, true, SinkResponse.httpOk "1", "T"⟩
          ⟨1, none, some 512⟩ "BPM:Value=72").1.last_heartbeat = none) :=
  claim_C2_flush_iff_bpm _ _ _ rfl

theorem parse_data_counter_cases (env : FlushEnv) (s : MonitorState)
    (line : String) :
    (parse_data env s line).1.current_patient_number = s.current_patient_number ∨
    (lineType line = "DETECT" ∧
      s.current_patient_number + 1 ≤
        (parse_data env s line).1.current_patient_number) := by
  cases hc : strContains line ":" with
  | false => left; simp [parse_data, hc]
  | true =>
      by_cases hdt : lineType line = "DETECT"
      · by_cases hq : strContains (lineValue line) "Queue=" = true
        · cases hqn : extractQueueNum (lineValue line) with
          | none => left; simp [parse_data, hc, hdt, hq, hqn]
          | some n =>
              right
              refine ⟨hdt, ?_⟩
              rw [parse_data_detect_counter env s line n hc hdt hq hqn]
              by_cases hle : n ≤ s.current_patient_number
              · rw [if_pos hle]
              · rw [if_neg hle]; omega
        · left; simp [parse_data, hc, hdt, hq]
      · by_cases hhb : lineType line = "HEARTBEAT"
        · cases hr : extractReading (lineValue line) with
          | none => left; simp [parse_data, hc, hdt, hhb, hr]
          | some v => left; simp [parse_data, hc, hdt, hhb, hr]
        · by_cases hbpm : lineType line = "BPM"
          · cases hv : extractValue (lineValue line) with
            | none => left; simp [parse_data, hc, hdt, hhb, hbpm, hv]
            | some v =>
                cases hlh : s.last_heartbeat with
                | none => left; simp [parse_data, hc, hdt, hhb, hbpm, hv, hlh]
                | some hb =>
                    left
                    simp [parse_data, hc, hdt, hhb, hbpm, hv, hlh,
                      save_patient_data_counter]
          · left; simp [parse_data, hc, hdt, hhb, hbpm]

/-- C10: the patient sequence counter is non-decreasing across every
handled line; a line whose key is not `DETECT` never modifies it; and
every `DETECT` line with a successfully parsed `Queue=n` sub-field
strictly increases it (the new value is at least the old value plus
one). -/
theorem claim_C10_counter_monotone (env : FlushEnv) (s : MonitorState)
    (line : String) :
    s.current_patient_number ≤ (parse_data env s line).1.current_patient_number ∧
    (lineType line ≠ "DETECT" →
      (parse_data env s line).1.current_patient_number =
        s.current_patient_number) ∧
    (∀ n : Int, strContains line ":" = true → lineType line = "DETECT" →
      strContains (lineValue line) "Queue=" = true →
      extractQueueNum (lineValue line) = some n →
      s.current_patient_number + 1 ≤
        (parse_data env s line).1.current_patient_number) := by
  refine ⟨?_, ?_, ?_⟩
  · rcases parse_data_counter_cases env s line with h | ⟨_, h⟩
    · omega
    · omega
  · intro hdt
    rcases parse_data_counter_cases env s line with h | ⟨hd, _⟩
    · exact h
    · exact absurd hd hdt
  · intro n hc hdt hq hn
    rw [parse_data_detect_counter env s line n hc hdt hq hn]
    by_cases hle : n ≤ s.current_patient_number
    · rw [if_pos hle]
    · rw [if_neg hle]; omega

/-- Witness for C10 at a concrete state and line: the counter strictly
increases on a parsed `DETECT` line and is untouched by a `BPM` line. -/
theorem claim_C10_counter_monotone_witness :
    (5 : Int) ≤ (parse_data ⟨true, true, SinkResponse.httpOk "1", "T"⟩
        ⟨5, none, none⟩ "DETECT:Queue=2").1.current_patient_number ∧
    (parse_data ⟨true, true, SinkResponse.httpOk "1", "T"⟩ ⟨5, none, none⟩
        "BPM:80").1.current_patient_number = 5 ∧
    (5 : Int) + 1 ≤ (parse_data ⟨true, true, SinkResponse.httpOk "1", "T"⟩
        ⟨5, none, none⟩ "DETECT:Queue=2").1.current_patient_number :=
  ⟨(claim_C10_counter_monotone _ ⟨5, none, none⟩ "DETECT:Queue=2").1,
   (claim_C10_counter_monotone _ ⟨5, none, none⟩ "BPM:80").2.1 (by decide),
   (claim_C10_counter_monotone _ ⟨5, none, none⟩ "DETECT:Queue=2").2.2 2
     (by decide) (by decide) (by decide) (by decide)⟩

theorem connect_go_attempts_le (env : ConnEnv) (l : List Nat)
    (pin : Option String) : (connect_go env l pin).2.1 ≤ l.length := by
  induction l generalizing pin with
  | nil => simp [connect_go]
  | cons i rest ih =>
      unfold connect_go
      rcases h : connect_attempt env i pin with ⟨r, evs⟩
      rcases r with out | pin2 <;> simp [h]
      exact ih pin2

theorem connect_open_sleep_mem (env : ConnEnv) (i : Nat) (p : String)
    (pre : List ConnEvent) (n : Nat)
    (h : ConnEvent.sleepRetry n ∈ (connect_open env i p pre).2) :
    ConnEvent.sleepRetry n ∈ pre ∨ n = retry_delay := by
  unfold connect_open at h
  cases ho : env.openRes i p <;> rw [ho] at h
  · rcases List.mem_append.mp h with h | h
    · exact Or.inl h
    · simp at h
  · rcases List.mem_append.mp h with h | h
    · exact Or.inl h
    · split at h <;> simp at h
      exact Or.inr h
  · exact Or.inl h

theorem connect_attempt_sleep_mem (env : ConnEnv) (i : Nat)
    (pin : Option String) (n : Nat)
    (h : ConnEvent.sleepRetry n ∈ (connect_attempt env i pin).2) :
    n = retry_delay := by
  unfold connect_attempt at h
  rcases pin with _ | p
  · by_cases hemp : (env.scan i).isEmpty = true
    · rw [if_pos hemp] at h
      simp at h
    · rw [if_neg hemp] at h
      rcases hf : (env.scan i).filter (env.testOk i) with _ | ⟨q, qs⟩ <;>
        rw [hf] at h
      · rcases List.mem_append.mp h with h | h
        · simp at h
        · split at h <;> simp at h
          exact h
      · rcases connect_open_sleep_mem env i q _ n h with hmem | hval
        · simp at hmem
        · exact hval
  · rcases connect_open_sleep_mem env i p [] n h with hmem | hval
    · simp at hmem
    · exact hval

theorem connect_go_sleep_mem (env : ConnEnv) (l : List Nat)
    (pin : Option String) (n : Nat)
    (h : ConnEvent.sleepRetry n ∈ (connect_go env l pin).2.2) :
    n = retry_delay := by
  induction l generalizing pin with
  | nil => simp [connect_go] at h
  | cons i rest ih =>
      unfold connect_go at h
      rcases ha : connect_attempt env i pin with ⟨r, evs⟩
      rcases r with out | pin2 <;> rw [ha] at h <;> simp at h
      · exact connect_attempt_sleep_mem env i pin n (by rw [ha]; exact h)
      · rcases h with h | h
        · exact connect_attempt_sleep_mem env i pin n (by rw [ha]; exact h)
        · exact ih pin2 h

/-- C6: `connect` enters at most `max_retries = 3` attempts; every
inter-attempt delay it takes is `retry_delay = 2` time units; a busy open
on the pinned/selected endpoint clears the pin (`self.port = None`), so
the next attempt re-discovers; and when the single discovered candidate is
busy on every attempt, `connect` fails after exactly 3 attempts, sleeping
2 units between consecutive attempts and re-scanning on each. -/
theorem claim_C6_connect_retry_bound :
    (∀ (env : ConnEnv) (pin : Option String),
      (connect env pin).2.1 ≤ max_retries) ∧
    (∀ (env : ConnEnv) (pin : Option String) (n : Nat),
      ConnEvent.sleepRetry n ∈ (connect env pin).2.2 → n = retry_delay) ∧
    (∀ (env : ConnEnv) (i : Nat) (p : String),
      env.openRes i p = OpenResult.openBusy →
      (connect_attempt env i (some p)).1 = Sum.inr none) ∧
    (∀ (env : ConnEnv) (p : String),
      (∀ i, env.scan i = [p]) → (∀ i, env.testOk i p = true) →
      (∀ i, env.openRes i p = OpenResult.openBusy) →
      connect env none =
        (ConnOutcome.retriesExhausted, 3,
         [ConnEvent.discover [p], ConnEvent.sleepRetry 2,
          ConnEvent.discover [p], ConnEvent.sleepRetry 2,
          ConnEvent.discover [p]])) := by
  refine ⟨?_, ?_, ?_, ?_⟩
  · intro env pin
    have h := connect_go_attempts_le env (List.range max_retries) pin
    simpa [connect] using h
  · intro env pin n h
    exact connect_go_sleep_mem env (List.range max_retries) pin n h
  · intro env i p h
    simp [connect_attempt, connect_open, h]
  · intro env p hscan htest hopen
    have hr : List.range max_retries = [0, 1, 2] := by decide
    simp only [connect, hr]
    simp +decide [connect_go, connect_attempt, connect_open, hscan, htest,
      hopen, max_retries, retry_delay, List.filter]

/-- Witness for C6: a concrete environment whose single candidate
`"cu.x"` probes clean but opens busy on every attempt. -/
theorem claim_C6_connect_retry_bound_witness :
    (connect ⟨fun _ => ["cu.x"], fun _ _ => true,
        fun _ _ => OpenResult.openBusy⟩ none).2.1 ≤ max_retries ∧
    (2 : Nat) = retry_delay ∧
    (connect_attempt ⟨fun _ => ["cu.x"], fun _ _ => true,
        fun _ _ => OpenResult.openBusy⟩ 0 (some "cu.x")).1 = Sum.inr none ∧
    connect ⟨fun _ => ["cu.x"], fun _ _ => true,
        fun _ _ => OpenResult.openBusy⟩ none =
      (ConnOutcome.retriesExhausted, 3,
       [ConnEvent.discover ["cu.x"], ConnEvent.sleepRetry 2,
        ConnEvent.discover ["cu.x"], ConnEvent.sleepRetry 2,
        ConnEvent.discover ["cu.x"]]) :=
  ⟨claim_C6_connect_retry_bound.1 _ none,
   claim_C6_connect_retry_bound.2.1
     ⟨fun _ => ["cu.x"], fun _ _ => true, fun _ _ => OpenResult.openBusy⟩
     none 2 (by decide),
   claim_C6_connect_retry_bound.2.2.1 _ 0 "cu.x" rfl,
   claim_C6_connect_retry_bound.2.2.2 _ "cu.x" (fun _ => rfl) (fun _ => rfl)
     (fun _ => rfl)⟩

theorem getLast?_map_eq {α β : Type} (f : α → β) (l : List α) :
    (l.map f).getLast? = l.getLast?.map f := by
  induction l with
  | nil => rfl
  | cons a t ih =>
      cases t with
      | nil => rfl
      | cons b t2 =>
          simpa [List.getLast?_cons_cons] using ih

/-- C7: appending completed records to a nonempty store file and re-running
startup initialization seeds the patient sequence counter from the last
appended row's patient number; when the file is absent, initialization
creates it with just the header row and the counter starts at 0. -/
theorem claim_C7_store_roundtrip :
    (∀ (file0 : List CsvRow) (recs : List (Int × String × Int × Int))
       (r : Int × String × Int × Int),
      file0 ≠ [] → recs.getLast? = some r →
      (init_csv (some (appendRecords file0 recs))).2 = r.1) ∧
    init_csv none = ([CsvRow.header], 0) := by
  refine ⟨?_, rfl⟩
  intro file0 recs r hfile hlast
  have hrecs : recs ≠ [] := by
    intro hnil
    rw [hnil] at hlast
    simp at hlast
  have hmapne : recs.map recordToRow ≠ [] := by
    simpa using hrecs
  have hlen : 1 < (appendRecords file0 recs).length := by
    unfold appendRecords
    rcases file0 with _ | ⟨a, t⟩
    · exact absurd rfl hfile
    · rcases recs with _ | ⟨b, u⟩
      · exact absurd rfl hrecs
      · simp
  have hgl : (appendRecords file0 recs).getLast? = some (recordToRow r) := by
    unfold appendRecords
    rw [List.getLast?_append_of_ne_nil file0 hmapne, getLast?_map_eq, hlast]
    rfl
  simp only [init_csv]
  rw [if_pos hlen, hgl]
  rfl

/-- Witness for C7: a header-only store plus two appended records re-seeds
the counter to the second record's patient number, 9. -/
theorem claim_C7_store_roundtrip_witness :
    (init_csv (some (appendRecords [CsvRow.header]
        [(7, "T1", 70, 500), (9, "T2", 80, 400)]))).2 = 9 ∧
    init_csv none = ([CsvRow.header], 0) :=
  ⟨claim_C7_store_roundtrip.1 [CsvRow.header]
     [(7, "T1", 70, 500), (9, "T2", 80, 400)] (9, "T2", 80, 400)
     (by decide) (by decide),
   claim_C7_store_roundtrip.2⟩

/-- C8 is a code bug: `reconnect` calls `disconnect`, which sets
`self.running = False`, and `connect` never sets it back; so on the first
tick whose connection check fails, the successful reconnect resets the
attempt counter and re-opens the transport, yet `running` is false and the
`while self.running` loop exits at its next check instead of resuming
reading — the loop does not continue while the flag "holds", because the
reconnect path itself clears the flag.  Concretely: from a running,
healthy-looking state, one failed check with a successful reconnect leaves
`running = false`, and `worker_run` consumes no further ticks. -/
theorem claim_C8_reconnect_clears_running :
    (worker_step ⟨false, true⟩ ⟨true, false, 0, true⟩).running = false ∧
    (worker_step ⟨false, true⟩ ⟨true, false, 0, true⟩).reconnect_attempts = 0 ∧
    (worker_step ⟨false, true⟩ ⟨true, false, 0, true⟩).connected = true ∧
    worker_run [⟨false, true⟩, ⟨true, true⟩, ⟨true, true⟩]
        ⟨true, false, 0, true⟩ =
      worker_step ⟨false, true⟩ ⟨true, false, 0, true⟩ := by decide

theorem py_dedup_aux_mem (x : String) (l seen : List String) :
    x ∈ py_dedup_aux seen l ↔ (x ∈ l ∧ x ∉ seen) := by
  induction l generalizing seen with
  | nil => simp [py_dedup_aux]
  | cons y ys ih =>
      unfold py_dedup_aux
      by_cases hy : y ∈ seen
      · rw [if_pos hy, ih]
        constructor
        · rintro ⟨h1, h2⟩
          exact ⟨List.mem_cons_of_mem _ h1, h2⟩
        · rintro ⟨h1, h2⟩
          rcases List.mem_cons.mp h1 with rfl | h1
          · exact absurd hy h2
          · exact ⟨h1, h2⟩
      · rw [if_neg hy]
        constructor
        · intro hmem
          rcases List.mem_cons.mp hmem with rfl | hmem
          · exact ⟨List.mem_cons_self _ _, hy⟩
          · rcases (ih (y :: seen)).mp hmem with ⟨h1, h2⟩
            exact ⟨List.mem_cons_of_mem _ h1,
              fun hx => h2 (List.mem_cons_of_mem _ hx)⟩
        · rintro ⟨h1, h2⟩
          rcases List.mem_cons.mp h1 with rfl | h1
          · exact List.mem_cons_self _ _
          · by_cases hxy : x = y
            · subst hxy
              exact List.mem_cons_self _ _
            · refine List.mem_cons_of_mem _ ((ih (y :: seen)).mpr ⟨h1, ?_⟩)
              intro hx
              rcases List.mem_cons.mp hx with h | h
              · exact hxy h
              · exact h2 h

theorem py_dedup_aux_nodup (l seen : List String) :
    (py_dedup_aux seen l).Nodup := by
  induction l generalizing seen with
  | nil => simp [py_dedup_aux]
  | cons y ys ih =>
      unfold py_dedup_aux
      by_cases hy : y ∈ seen
      · rw [if_pos hy]
        exact ih seen
      · rw [if_neg hy]
        refine List.nodup_cons.mpr ⟨?_, ih (y :: seen)⟩
        intro hmem
        exact ((py_dedup_aux_mem y ys (y :: seen)).mp hmem).2 (List.mem_cons_self y _)

theorem expand_aliases_append (a b : List String) :
    expand_aliases (a ++ b) = expand_aliases a ++ expand_aliases b := by
  induction a with
  | nil => rfl
  | cons q qs ih => simp [expand_aliases, ih]

theorem py_dedup_aux_sublist (l seen : List String) :
    List.Sublist (py_dedup_aux seen l) l := by
  induction l generalizing seen with
  | nil => simp [py_dedup_aux]
  | cons y ys ih =>
      unfold py_dedup_aux
      by_cases hy : y ∈ seen
      · rw [if_pos hy]
        exact (ih seen).cons y
      · rw [if_neg hy]
        exact (ih (y :: seen)).cons₂ y

/-- C9: the expansion of the matched names is built in discovery order —
wherever a matched name carrying the `cu.` marker occurs, it is emitted
followed immediately by its `tty.` sibling, and wherever a name carrying
the `tty.` marker (and not `cu.`) occurs, it is emitted followed
immediately by its `cu.` sibling — and the candidate list the locator
returns is the de-duplication of that expansion: an order-preserving
sublist of it with the same members and no duplicate entries, so each
alias pair appears at most once. -/
theorem claim_C9_alias_expansion_order :
    (∀ (l₁ l₂ : List String) (p : String), strContains p "cu." = true →
      expand_aliases (l₁ ++ p :: l₂) =
        expand_aliases l₁ ++ [p, pyReplace p "cu." "tty."] ++
          expand_aliases l₂) ∧
    (∀ (l₁ l₂ : List String) (p : String), strContains p "cu." = false →
      strContains p "tty." = true →
      expand_aliases (l₁ ++ p :: l₂) =
        expand_aliases l₁ ++ [p, pyReplace p "tty." "cu."] ++
          expand_aliases l₂) ∧
    (∀ comports : List String,
      List.Sublist (find_available_arduino_port comports)
        (expand_aliases (comports.filter isArduinoName))) ∧
    (∀ (comports : List String) (x : String),
      x ∈ find_available_arduino_port comports ↔
        x ∈ expand_aliases (comports.filter isArduinoName)) ∧
    (∀ comports : List String, (find_available_arduino_port comports).Nodup) := by
  refine ⟨?_, ?_, ?_, ?_, ?_⟩
  · intro l₁ l₂ p hcu
    rw [expand_aliases_append]
    simp [expand_aliases, hcu]
  · intro l₁ l₂ p hcu htty
    rw [expand_aliases_append]
    simp [expand_aliases, hcu, htty]
  · intro comports
    exact py_dedup_aux_sublist _ []
  · intro comports x
    unfold find_available_arduino_port
    rw [py_dedup_aux_mem]
    simp
  · intro comports
    exact py_dedup_aux_nodup _ []

/-- Witness for C9: concrete scans exercising the `cu.` and `tty.`
sibling-emission rules in place, and the de-duplicated final candidate
list for a scan returning both aliases of one device. -/
theorem claim_C9_alias_expansion_order_witness :
    expand_aliases (["other"] ++ "/dev/cu.usbmodem14101" :: ["x"]) =
      expand_aliases ["other"] ++
        ["/dev/cu.usbmodem14101",
         pyReplace "/dev/cu.usbmodem14101" "cu." "tty."] ++
        expand_aliases ["x"] ∧
    expand_aliases ([] ++ "/dev/tty.usbmodem14101" :: []) =
      expand_aliases [] ++
        ["/dev/tty.usbmodem14101",
         pyReplace "/dev/tty.usbmodem14101" "tty." "cu."] ++
        expand_aliases [] ∧
    List.Sublist
      (find_available_arduino_port
        ["/dev/cu.usbmodem14101", "/dev/tty.usbmodem14101", "other"])
      (expand_aliases
        ((["/dev/cu.usbmodem14101", "/dev/tty.usbmodem14101",
           "other"]).filter isArduinoName)) ∧
    ("/dev/tty.usbmodem14101" ∈ find_available_arduino_port
        ["/dev/cu.usbmodem14101", "/dev/tty.usbmodem14101", "other"] ↔
      "/dev/tty.usbmodem14101" ∈ expand_aliases
        ((["/dev/cu.usbmodem14101", "/dev/tty.usbmodem14101",
           "other"]).filter isArduinoName)) ∧
    (find_available_arduino_port
        ["/dev/cu.usbmodem14101", "/dev/tty.usbmodem14101", "other"]).Nodup :=
  ⟨claim_C9_alias_expansion_order.1 ["other"] ["x"] _ (by decide),
   claim_C9_alias_expansion_order.2.1 [] [] _ (by decide) (by decide),
   claim_C9_alias_expansion_order.2.2.1 _,
   claim_C9_alias_expansion_order.2.2.2.1 _ _,
   claim_C9_alias_expansion_order.2.2.2.2 _⟩

end HealthMonitor

